import Mathlib

/-!
Verification of the Master Hacker Terminal (src/masterhacker.py).

The Python source is shallowly embedded below.  Conventions:

* Python dynamically typed values that flow into the `system_status`
  dictionary are modelled by the inductive `PyVal` (bool / int / str);
  `isinstance(v, int)` is true for Python booleans, which `pyIsInt`
  reflects.
* Python dictionaries with string keys are modelled as insertion-ordered
  association lists (`dictGet`, `dictSet`, `dictHasKey`).
* Raising `ValueError` / `ZeroDivisionError` / `SystemExit` is modelled
  with `Except` and the `PyError` / `PyExc` inductives; the messages of
  the source are recorded in comments next to each constructor.
* `os.environ` and the OS terminal-size query are modelled by the `Env`
  structure; `shutil.get_terminal_size()` raising is `Env.osColumns =
  none`.
* The pseudo-random generator (`random.seed(1337)` followed by draws of
  `random.uniform` / `random.choice`) is modelled by `RNG`, a stream of
  rationals; `random.uniform a b` maps a stream element `u` (the value
  of `random()`, contained in `[0, 1)`) to `a + (b - a) * u`, and
  `random.choice` consumes one stream element to pick an index.
* The art assets (banners, warning and access-granted boxes) are opaque
  string constants per the design scope; they are represented by short
  placeholder strings since no claim depends on their content.
* Python float arithmetic inside `progress` (`int((i / steps) * 100)`)
  is modelled in exact arithmetic as `(i * 100) / steps`; the
  division-by-zero behaviour at `steps = 0` is modelled faithfully.
-/

namespace MasterHacker

/-! ## String primitives

The Python string methods used by the source are re-implemented over
the character list of the string (structural recursion), mirroring
their behaviour on the ASCII data the program manipulates. -/

/-- Python `s.upper()`. -/
def strUpper (s : String) : String := ⟨s.data.map Char.toUpper⟩

/-- Python `s.lower()`. -/
def strLower (s : String) : String := ⟨s.data.map Char.toLower⟩

/-- Python `s.startswith(pre)`. -/
def strStartsWith (s pre : String) : Bool := pre.data.isPrefixOf s.data

def containsSlice : List Char → List Char → Bool
  | [], pat => pat.isEmpty
  | c :: t, pat => pat.isPrefixOf (c :: t) || containsSlice t pat

/-- Python `pat in s` (substring test). -/
def containsSub (s pat : String) : Bool := containsSlice s.data pat.data

/-- Splitting a character list on whitespace runs, accumulating the
current word reversed. -/
def wordsAux : List Char → List Char → List (List Char)
  | [], cur => if cur.isEmpty then [] else [cur.reverse]
  | c :: t, cur =>
    if c.isWhitespace then
      if cur.isEmpty then wordsAux t [] else cur.reverse :: wordsAux t []
    else wordsAux t (c :: cur)

/-- Python `s.strip().split()`: split on whitespace runs, no empty
parts (`split()` with no argument already ignores leading and trailing
whitespace, so the `strip()` is absorbed). -/
def pySplitWs (s : String) : List String := (wordsAux s.data []).map (fun l => ⟨l⟩)

/-- Value of an all-digit string, Python `int(s)` on the guarded
(`s.isdigit()`) paths. -/
def digitsVal (s : String) : Nat :=
  s.data.foldl (fun acc c => acc * 10 + (c.toNat - 48)) 0

/-! ## Dynamically typed values (Python `Any` in `system_status`) -/

inductive PyVal where
  | pyBool (b : Bool)
  | pyInt (n : Int)
  | pyStr (s : String)
deriving DecidableEq, Repr

/-- Python `isinstance(v, bool)`. -/
def pyIsBool : PyVal → Bool
  | .pyBool _ => true
  | _ => false

/-- Python `isinstance(v, str)`. -/
def pyIsStr : PyVal → Bool
  | .pyStr _ => true
  | _ => false

/-- Python `isinstance(v, int)`; true for booleans as well, since Python
bool is a subclass of int. -/
def pyIsInt : PyVal → Bool
  | .pyInt _ => true
  | .pyBool _ => true
  | _ => false

/-- Python truthiness of a value, as used by `if state.system_status[k]:`
style conditionals. -/
def pyTruthy : PyVal → Bool
  | .pyBool b => b
  | .pyInt n => n != 0
  | .pyStr s => s != ""

/-- Python `str(v)` as used by f-string interpolation of a status value. -/
def pyStrOf : PyVal → String
  | .pyBool b => if b then "True" else "False"
  | .pyInt n => toString n
  | .pyStr s => s

/-! ## String-keyed dictionaries as association lists -/

def dictHasKey (d : List (String × PyVal)) (k : String) : Bool :=
  d.any (fun p => p.1 == k)

/-- Lookup `d[k]`; total with an (unreachable when the key is present)
default, since every use in the source is guarded by key presence. -/
def dictGet (d : List (String × PyVal)) (k : String) : PyVal :=
  ((d.find? (fun p => p.1 == k)).map Prod.snd).getD (.pyStr "")

/-- Assignment `d[k] = v`: replaces in place if the key is present,
appends otherwise (Python dict insertion order). -/
def dictSet (d : List (String × PyVal)) (k : String) (v : PyVal) :
    List (String × PyVal) :=
  if dictHasKey d k then d.map (fun p => if p.1 == k then (k, v) else p)
  else d ++ [(k, v)]

/-! ## Constants (src/masterhacker.py lines 206-299) -/

def DISPLAY_WIDTH_COMPACT_THRESHOLD : Int := 62
def DISPLAY_WIDTH_STANDARD_THRESHOLD : Int := 99
def DISPLAY_DEFAULT_TERMINAL_WIDTH : Int := 80
def PROGRESS_BAR_STEPS_SCAN : Nat := 24
def PROGRESS_BAR_STEPS_DECRYPT : Nat := 26
def PROGRESS_BAR_STEPS_INFILTRATE : Nat := 28
def PROGRESS_BAR_STEPS_HACK : Nat := 30
def PROGRESS_BAR_STEPS_TRACE : Nat := 25
def PROGRESS_BAR_STEPS_COUNTERTRACE : Nat := 22
def PROGRESS_BAR_WIDTH : Nat := 52
def STATUS_ONLINE : String := "ONLINE"
def STATUS_OFFLINE : String := "OFFLINE"
def STATUS_ENABLED : String := "ENABLED"
def STATUS_DISABLED : String := "DISABLED"
def STATUS_SECURITY_MAXIMUM : String := "MAXIMUM"
def STATUS_STEALTH_ON : String := "ON"
def STATUS_STEALTH_OFF : String := "OFF"
def DEMO_RANDOM_SEED : Nat := 1337
def DEMO_HACK_SYSTEMS : Int := 5
def DEMO_HACK_CREDITS : Int := 1337
def DEFAULT_CONNECTIONS : Int := 3
def DEFAULT_COMPROMISED_SYSTEMS : Int := 0
def DEFAULT_CREDITS : Int := 0
def COORDINATE_LAT_MIN : ℚ := -90
def COORDINATE_LAT_MAX : ℚ := 90
def COORDINATE_LON_MIN : ℚ := -180
def COORDINATE_LON_MAX : ℚ := 180
def COORDINATE_PRECISION : Nat := 4

/-- `PREDEFINED_LOCATIONS` (source lines 281-288): fixed
name -> (coordinates, ISP) table for the trace command. -/
def PREDEFINED_LOCATIONS : List (String × (String × String)) :=
  [ ("QUANTUM-DB", ("37.7749 deg N, 122.4194 deg W", "CyberCorp Industries")),
    ("MAINFRAME-7", ("40.7128 deg N, 74.0060 deg W", "MegaCorp Systems")),
    ("SATELLITE-X", ("51.5074 deg N, 0.1278 deg W", "SkyNet Communications")),
    ("NEXUS-CORE", ("35.6762 deg N, 139.6503 deg E", "Tech Dynamics")),
    ("CRYPTO-VAULT", ("52.5200 deg N, 13.4050 deg E", "SecureMax GmbH")),
    ("DATA-CENTER", ("34.0522 deg N, 118.2437 deg W", "InfoTech Solutions")) ]

/-! ## Application state (class ApplicationState, source lines 670-903) -/

/-- Initial `system_status` dictionary (source lines 723-731). -/
def initial_system_status : List (String × PyVal) :=
  [ ("online", .pyBool true),
    ("security_level", .pyStr STATUS_SECURITY_MAXIMUM),
    ("connections", .pyInt DEFAULT_CONNECTIONS),
    ("firewall", .pyBool true),
    ("stealth", .pyBool true),
    ("compromised_systems", .pyInt DEFAULT_COMPROMISED_SYSTEMS),
    ("credits", .pyInt DEFAULT_CREDITS) ]

/-- The session state.  `discovered_targets` is a list of
(name, security level) pairs; `infiltrated_targets` is a Python set of
strings, modelled as a duplicate-free list (`setAdd` below). -/
structure ApplicationState where
  unicode_mode : String := "auto"
  width_mode : String := "auto"
  discovered_targets : List (String × String) := []
  infiltrated_targets : List String := []
  system_status : List (String × PyVal) := initial_system_status
deriving DecidableEq, Repr

def initial_app_state : ApplicationState := {}

/-- Python `set.add` (iteration order of the set is irrelevant to every
claim; a duplicate-free list represents it). -/
def setAdd (l : List String) (x : String) : List String :=
  if x ∈ l then l else l ++ [x]

/-- Error kinds raised as `ValueError` by `ApplicationState`; each
constructor corresponds to one raise site of `validate_state` /
`update_system_status` in the source (lines 760-882). -/
inductive PyError where
  | invalidUnicodeMode
  | invalidWidthMode
  | missingStatusKeys (missing : List String)
  | typeMismatch (key : String)
  | invalidStatusKey (key : String)
deriving DecidableEq, Repr

def VALID_UNICODE_MODES : List String := ["auto", "on", "off"]
def VALID_WIDTH_MODES : List String := ["auto", "compact", "standard", "wide"]
def REQUIRED_STATUS_KEYS : List String :=
  [ "online", "security_level", "connections",
    "firewall", "stealth", "compromised_systems", "credits" ]

/-- `ApplicationState.validate_state` (source lines 733-825).  The
structural `isinstance` checks on `discovered_targets` and
`infiltrated_targets` are guaranteed by the typed embedding and the
final logical-consistency block is a no-op in the source (lines
817-823), so the checks that remain are the mode checks, the
missing-key check and the seven status type checks, in source order. -/
def validate_state (st : ApplicationState) : Except PyError Bool :=
  if st.unicode_mode ∉ VALID_UNICODE_MODES then .error .invalidUnicodeMode
  else if st.width_mode ∉ VALID_WIDTH_MODES then .error .invalidWidthMode
  else
    let missing := REQUIRED_STATUS_KEYS.filter (fun k => ¬ dictHasKey st.system_status k)
    if missing ≠ [] then .error (.missingStatusKeys missing)
    else if ¬ pyIsBool (dictGet st.system_status "online") then .error (.typeMismatch "online")
    else if ¬ pyIsStr (dictGet st.system_status "security_level") then .error (.typeMismatch "security_level")
    else if ¬ pyIsInt (dictGet st.system_status "connections") then .error (.typeMismatch "connections")
    else if ¬ pyIsBool (dictGet st.system_status "firewall") then .error (.typeMismatch "firewall")
    else if ¬ pyIsBool (dictGet st.system_status "stealth") then .error (.typeMismatch "stealth")
    else if ¬ pyIsInt (dictGet st.system_status "compromised_systems") then .error (.typeMismatch "compromised_systems")
    else if ¬ pyIsInt (dictGet st.system_status "credits") then .error (.typeMismatch "credits")
    else .ok true

/-- `ApplicationState.update_system_status` (source lines 866-882): the
key is checked, then the dictionary is mutated, and only afterwards is
`validate_state` run; a validation failure propagates as an exception
but the mutation has already happened.  The returned pair is (state
after the call, outcome). -/
def update_system_status (st : ApplicationState) (key : String) (v : PyVal) :
    ApplicationState × Except PyError Bool :=
  if ¬ dictHasKey st.system_status key then (st, .error (.invalidStatusKey key))
  else
    let st2 := { st with system_status := dictSet st.system_status key v }
    (st2, validate_state st2)

/-! ## CapabilityProbe: environment and terminal detection -/

/-- The ambient environment of one run: `os.environ`, the outcome of
`shutil.get_terminal_size()` (`none` models the `OSError` /
`AttributeError` branch), and `sys.stdout.isatty()`. -/
structure Env where
  vars : List (String × String)
  osColumns : Option Int
  stdoutIsTTY : Bool
deriving DecidableEq, Repr

/-- `os.environ.get(k, d)`. -/
def envGetD (e : Env) (k d : String) : String :=
  (((e.vars.find? (fun p => p.1 == k)).map Prod.snd)).getD d

/-- `os.environ.get(k)` (default `None`). -/
def envGetOpt (e : Env) (k : String) : Option String :=
  (e.vars.find? (fun p => p.1 == k)).map Prod.snd

/-- `utf8_env_check` (source lines 912-936). -/
def utf8_env_check (e : Env) : Bool :=
  ["LC_ALL", "LC_CTYPE", "LANG"].any (fun var =>
    let val := envGetD e var ""
    containsSub (strUpper val) "UTF-8" || containsSub (strLower val) "utf8")

def UNICODE_TERMS : List String :=
  ["xterm-256color", "screen-256color", "tmux-256color"]

/-- `terminal_hints_unicode` (source lines 938-964). -/
def terminal_hints_unicode (e : Env) : Bool :=
  let term := strLower (envGetD e "TERM" "")
  UNICODE_TERMS.any (fun t => strStartsWith term t)

/-- `should_use_unicode` (source lines 1063-1115), as a function of the
`unicode_mode` field and the environment.  The interactive probe
`probe_unicode_width` is intentionally not called on any path here,
matching the source (auto mode relies on the two non-blocking
environment checks only). -/
def should_use_unicode (mode : String) (e : Env) : Bool :=
  if mode == "off" then false
  else if mode == "on" then true
  else if mode == "auto" then utf8_env_check e && terminal_hints_unicode e
  else false

/-- Python `s.isdigit()` restricted to ASCII digits: nonempty and all
characters are digits. -/
def pyIsDigit (s : String) : Bool :=
  s ≠ "" && s.data.all Char.isDigit

/-- One environment-variable fallback step of `get_terminal_width`:
accepted only when present, all digits, and positive. -/
def envPositiveInt (v : Option String) : Option Int :=
  match v with
  | none => none
  | some s =>
    if pyIsDigit s then
      let n : Int := digitsVal s
      if n > 0 then some n else none
    else none

/-- `get_terminal_width` (source lines 1344-1402): OS query, then
`COLUMNS`, then `TERM_COLS`, then the literal default 80. -/
def get_terminal_width (e : Env) : Int :=
  let primary : Option Int :=
    match e.osColumns with
    | some c => if c > 0 then some c else none
    | none => none
  match primary with
  | some c => c
  | none =>
    match envPositiveInt (envGetOpt e "COLUMNS") with
    | some c => c
    | none =>
      match envPositiveInt (envGetOpt e "TERM_COLS") with
      | some c => c
      | none => DISPLAY_DEFAULT_TERMINAL_WIDTH

/-- `classify_width` (source lines 1405-1446). -/
def classify_width (width : Int) : String :=
  if width ≤ DISPLAY_WIDTH_COMPACT_THRESHOLD then "compact"
  else if width ≤ DISPLAY_WIDTH_STANDARD_THRESHOLD then "standard"
  else "wide"

/-- `get_terminal_width_tier` (source lines 1449-1497): non-interactive
output short-circuits to standard. -/
def get_terminal_width_tier (e : Env) : String :=
  if ¬ e.stdoutIsTTY then "standard"
  else classify_width (get_terminal_width e)

/-- `get_width_mode` (source lines 1500-1555), as a function of the
`width_mode` field and the environment. -/
def get_width_mode (mode : String) (e : Env) : String :=
  if mode ∈ ["compact", "standard", "wide"] then mode
  else if mode == "auto" then get_terminal_width_tier e
  else "standard"

/-! ## ProgressAnimator (`progress`, source lines 1558-1625) -/

/-- Exceptions that can escape an operation: the division by zero in
`progress` when `steps = 0`, and `sys.exit` (`SystemExit`). -/
inductive PyExc where
  | zeroDivision
  | systemExit (code : Int)
deriving DecidableEq, Repr

/-- `get_progress_chars` (source lines 1296-1341): (filled, empty). -/
def get_progress_chars (unicodeOn : Bool) : String × String :=
  if unicodeOn then ("█", "░") else ("#", ".")

/-- Python `s * n` for strings. -/
def strRepeat (s : String) (n : Nat) : String :=
  String.join (List.replicate n s)

/-- Python `f"{x:3d}"`: pad left with spaces to width 3. -/
def padLeft3 (s : String) : String :=
  strRepeat " " (3 - s.length) ++ s

/-- Python `f"{x:<3}"`: pad right with spaces to width 3. -/
def padRight3 (s : String) : String :=
  s ++ strRepeat " " (3 - s.length)

/-- One frame of the progress bar, for `steps > 0` (source lines
1612-1621).  Python computes `int((i / steps) * 100)` in float
arithmetic; the exact floor `(i * 100) / steps` is used here. -/
def progressFrame (chars : String × String) (steps i : Nat) : String :=
  let filled := strRepeat chars.1 i
  let empty := strRepeat chars.2 (steps - i)
  let percent := (i * 100) / steps
  let dots := if i % 3 == 0 then "..." else if i % 3 == 1 then ".." else "."
  "| [" ++ filled ++ empty ++ "] " ++ padLeft3 (toString percent) ++ "% " ++
    padRight3 dots ++ " |"

/-- The lines printed by one `progress(label, steps, delay)` call with
`steps > 0`: a blank line and the upper-cased label (one print of
`"\n[...]"`), the top border, one frame per step `i` in `0..steps`
inclusive, then a blank line and the bottom border.  Frames overwrite
each other on a real terminal via `"\r"`; each is kept as a line. -/
def progressLines (label : String) (steps : Nat) (unicodeOn : Bool) : List String :=
  let chars := get_progress_chars unicodeOn
  let border := "+" ++ strRepeat "-" PROGRESS_BAR_WIDTH ++ "+"
  ["", "[" ++ strUpper label ++ "]", border] ++
    (List.range (steps + 1)).map (progressFrame chars steps) ++
    ["", border]

/-- `progress` with its failure behaviour: for `steps = 0` the loop
body at `i = 0` evaluates `int((i / steps) * 100)` and raises
`ZeroDivisionError` before completing any frame (the label line and top
border have been printed at that point); for `steps > 0` every frame is
rendered. -/
def progressRun (label : String) (steps : Nat) (unicodeOn : Bool) :
    Except PyExc (List String) :=
  if steps = 0 then .error .zeroDivision
  else .ok (progressLines label steps unicodeOn)

/-! ## Pseudo-random generator -/

/-- The stream of draws of the seeded Mersenne Twister.  Each element
models one call of `random()` (a rational in `[0, 1)`); `random.choice`
consumes one element and derives an index from it. -/
structure RNG where
  stream : List ℚ
deriving DecidableEq, Repr

def RNG.next (r : RNG) : ℚ × RNG :=
  (r.stream.headD 0, ⟨r.stream.tail⟩)

/-- `random.uniform a b`: `a + (b - a) * random()`. -/
def random_uniform (a b : ℚ) (r : RNG) : ℚ × RNG :=
  let (u, r2) := r.next
  (a + (b - a) * u, r2)

/-- `random_line` (source lines 1754-1790), i.e. `random.choice`: one
draw selects an index into the (nonempty) option list. -/
def random_line (options : List String) (r : RNG) : String × RNG :=
  let (q, r2) := r.next
  (options.getD (q.num.natAbs % options.length) "", r2)

/-- Python `round(x, 4)`: scale by `10^4`, round to the nearest integer
and scale back (the banker-rounding tie behaviour of Python is
abstracted to round-half-up; no claim depends on tie cases). -/
def round4 (x : ℚ) : ℚ :=
  ((round (x * 10000) : ℤ) : ℚ) / 10000

/-! ## Display assets (opaque per the design scope) -/

def COMPACT_ASCII_BANNER : String := "<compact ascii banner>"
def STANDARD_ASCII_BANNER : String := "<standard ascii banner>"
def WIDE_ASCII_BANNER : String := "<wide ascii banner>"
def COMPACT_UNICODE_BANNER : String := "<compact unicode banner>"
def STANDARD_UNICODE_BANNER : String := "<standard unicode banner>"
def WIDE_UNICODE_BANNER : String := "<wide unicode banner>"
def ACCESS_GRANTED_BOX : String := "<access granted box>"
def WARNING_BOX : String := "<warning box>"

/-- `get_banner` (source lines 1122-1177): 3 x 2 selection by width
tier and unicode decision. -/
def get_banner (st : ApplicationState) (e : Env) : String :=
  let tier := get_width_mode st.width_mode e
  if should_use_unicode st.unicode_mode e then
    if tier == "compact" then COMPACT_UNICODE_BANNER
    else if tier == "wide" then WIDE_UNICODE_BANNER
    else STANDARD_UNICODE_BANNER
  else
    if tier == "compact" then COMPACT_ASCII_BANNER
    else if tier == "wide" then WIDE_ASCII_BANNER
    else STANDARD_ASCII_BANNER

/-- `show_access_granted` (source lines 1628-1664); the tier/unicode
variants of the box are collapsed into one placeholder constant since
no claim depends on the art. -/
def show_access_granted_lines : List String := [ACCESS_GRANTED_BOX]

/-- `show_warning` (source lines 1667-1707). -/
def show_warning_lines : List String := [WARNING_BOX]

/-! ## Command implementations (source lines 1797-2422) -/

def HELP_LINES : List String :=
  [ "Available commands:",
    "  help                    - Show this help",
    "  scan                    - Scan for targets",
    "  decrypt                 - Decrypt intercepted data",
    "  infiltrate <target>     - Infiltrate specified target",
    "  hack                    - Execute hack sequence",
    "  trace <target>          - Trace target location",
    "  countertrace|evade      - Counter enemy traces",
    "  status                  - Show system status",
    "  clear                   - Clear terminal",
    "  exit                    - Exit terminal" ]

/-- Fixed scan catalog (source lines 1911-1915). -/
def SCAN_TARGETS : List (String × String) :=
  [("MAINFRAME-7", "low"), ("QUANTUM-DB", "high"), ("SATELLITE-X", "medium")]

/-- `cmd_scan` (source lines 1853-1919): progress animation, then the
discovered list is replaced by the fixed catalog and one line per entry
is printed. -/
def cmd_scan (st : ApplicationState) (uni : Bool) :
    ApplicationState × List String :=
  let out := progressLines "Scanning network" PROGRESS_BAR_STEPS_SCAN uni
  let st2 := { st with discovered_targets := SCAN_TARGETS }
  (st2,
    out ++ ["Found " ++ toString st2.discovered_targets.length ++ " targets:"] ++
      st2.discovered_targets.map (fun p => "- " ++ p.1 ++ " (security: " ++ p.2 ++ ")"))

/-- Fixed decrypt message catalog (source lines 1968-1975). -/
def DECRYPT_MESSAGES : List String :=
  [ "THE CAKE IS A LIE",
    "TRUST NO ONE",
    "FOLLOW THE WHITE RABBIT",
    "THE MATRIX HAS YOU",
    "WAKE UP NEO",
    "I AM ROOT" ]

/-- `cmd_decrypt` (source lines 1922-1978). -/
def cmd_decrypt (uni : Bool) (r : RNG) : List String × RNG :=
  let out := progressLines "Decrypting data" PROGRESS_BAR_STEPS_DECRYPT uni
  let (message, r2) := random_line DECRYPT_MESSAGES r
  (out ++ ["Decrypted message: \"" ++ message ++ "\""], r2)

/-- `cmd_infiltrate` (source lines 1981-2063).  `target = none` models
a missing argument; an empty string is likewise falsy in Python. -/
def cmd_infiltrate (target : Option String) (st : ApplicationState) (uni : Bool) :
    ApplicationState × List String :=
  match target with
  | none => (st, ["Target required. Usage: infiltrate <target>"])
  | some t =>
    if t == "" then (st, ["Target required. Usage: infiltrate <target>"])
    else
      let tu := strUpper t
      let target_names := st.discovered_targets.map Prod.fst
      if tu ∉ target_names then
        (st, ["Target not found. Run \x27scan\x27 first."])
      else
        let st2 := { st with infiltrated_targets := setAdd st.infiltrated_targets tu }
        (st2,
          show_warning_lines ++ ["Infiltrating " ++ tu ++ "..."] ++
            progressLines "Bypassing security" PROGRESS_BAR_STEPS_INFILTRATE uni ++
            show_access_granted_lines ++ ["Root privileges obtained."])

/-- `cmd_hack` (source lines 2066-2141): overwrites
`compromised_systems` and `credits` with fixed constants. -/
def cmd_hack (st : ApplicationState) (uni : Bool) :
    ApplicationState × List String :=
  let st2 := { st with
    system_status :=
      dictSet (dictSet st.system_status "compromised_systems" (.pyInt DEMO_HACK_SYSTEMS))
        "credits" (.pyInt DEMO_HACK_CREDITS) }
  (st2,
    show_warning_lines ++ ["Initiating hack sequence..."] ++
      progressLines "Exploiting vulnerabilities" PROGRESS_BAR_STEPS_HACK uni ++
      show_access_granted_lines ++
      [ "HACK SUCCESSFUL",
        "Systems compromised: " ++ toString DEMO_HACK_SYSTEMS,
        "Credits earned: " ++ toString DEMO_HACK_CREDITS ])

/-- Fallback ISP pool for unknown trace targets (source line 2228). -/
def TRACE_FALLBACK_ISPS : List String :=
  ["CyberCorp Industries", "TechMax Solutions", "DataFlow Systems"]

/-- Structured outcome of the location part of `cmd_trace`. -/
inductive TraceOut where
  | known (coords isp : String)
  | unknown (lat lon : ℚ) (isp : String)
deriving DecidableEq, Repr

/-- The lookup-or-generate part of `cmd_trace` (source lines 2217-2230):
a table hit consumes no randomness; a miss draws latitude, longitude
and an ISP name. -/
def cmd_trace_outcome (target : String) (r : RNG) : TraceOut × RNG :=
  match PREDEFINED_LOCATIONS.find? (fun p => p.1 == target) with
  | some p => (.known p.2.1 p.2.2, r)
  | none =>
    let (lat0, r1) := random_uniform COORDINATE_LAT_MIN COORDINATE_LAT_MAX r
    let (lon0, r2) := random_uniform COORDINATE_LON_MIN COORDINATE_LON_MAX r1
    let (isp, r3) := random_line TRACE_FALLBACK_ISPS r2
    (.unknown (round4 lat0) (round4 lon0) isp, r3)

/-- Decimal rendering of a multiple of `1/10000`, standing in for the
Python float `repr` in the coordinate line (trailing-zero trimming of
the float `repr` is not modelled; no claim depends on it). -/
def ratRepr4 (q : ℚ) : String :=
  let z : Int := round (q * 10000)
  let sign := if z < 0 then "-" else ""
  sign ++ toString (z.natAbs / 10000) ++ "." ++ toString (z.natAbs % 10000)

def renderTraceOut : TraceOut → List String
  | .known coords isp => ["Location found: " ++ coords, "ISP: " ++ isp]
  | .unknown lat lon isp =>
    [ "Location found: " ++ ratRepr4 lat ++ " deg N, " ++ ratRepr4 lon ++ " deg W",
      "ISP: " ++ isp ]

/-- `cmd_trace` (source lines 2144-2230).  Tracing reads no session
state at all: the function does not take an `ApplicationState`. -/
def cmd_trace (target : Option String) (uni : Bool) (r : RNG) :
    List String × RNG :=
  match target with
  | none => (["Target required. Usage: trace <target>"], r)
  | some t =>
    if t == "" then (["Target required. Usage: trace <target>"], r)
    else
      let tu := strUpper t
      let (outc, r2) := cmd_trace_outcome tu r
      (["Tracing " ++ tu ++ "..."] ++
        progressLines "Triangulating position" PROGRESS_BAR_STEPS_TRACE uni ++
        renderTraceOut outc, r2)

/-- `cmd_countertrace` (source lines 2233-2280); no state mutation. -/
def cmd_countertrace (uni : Bool) : List String :=
  ["Deploying countermeasures..."] ++
    progressLines "Scrambling identity" PROGRESS_BAR_STEPS_COUNTERTRACE uni ++
    show_access_granted_lines ++ ["Trace blocked. Identity scrambled."]

/-- Rendering of the `status_map = {True: ENABLED, False: DISABLED}`
lookup of `cmd_status`; a non-boolean key would raise `KeyError` in
Python, which is unreachable for every state whose `firewall` field is
boolean (the sentinel marks that branch). -/
def statusMapLookup : PyVal → String
  | .pyBool true => STATUS_ENABLED
  | .pyBool false => STATUS_DISABLED
  | _ => "<KeyError>"

/-- The five lines printed by `cmd_status` (source lines 2338-2347):
`online` through Python truthiness as ONLINE/OFFLINE, `firewall`
through the ENABLED/DISABLED map, `stealth` as ON/OFF;
`compromised_systems` and `credits` are not printed. -/
def statusLines (d : List (String × PyVal)) : List String :=
  [ "System Status: " ++ (if pyTruthy (dictGet d "online") then STATUS_ONLINE else STATUS_OFFLINE),
    "Security Level: " ++ pyStrOf (dictGet d "security_level"),
    "Active Connections: " ++ pyStrOf (dictGet d "connections"),
    "Firewall: " ++ statusMapLookup (dictGet d "firewall"),
    "Stealth Mode: " ++ (if pyTruthy (dictGet d "stealth") then STATUS_STEALTH_ON else STATUS_STEALTH_OFF) ]

/-- `cmd_exit` output (source lines 2420-2421), after which
`sys.exit(0)` raises `SystemExit`. -/
def EXIT_LINES : List String :=
  ["Connection terminated.", "Stay anonymous, hacker."]

/-! ## Command parsing and dispatch (source lines 2429-2574) -/

/-- `parse_command` (source lines 2429-2481): strip, split on
whitespace runs, lower-case the command, keep argument case. -/
def parse_command (command_line : String) : Option String × List String :=
  let parts := pySplitWs command_line
  match parts with
  | [] => (none, [])
  | c :: rest => (some (strLower c), rest)

/-- Result of one `execute_command` call: the session state after the
call, the lines printed during it, the generator state, and the
outcome — `.ok b` when the Python function returns the boolean `b`,
`.error e` when an exception (`SystemExit` from `cmd_exit`) propagates
out instead of a return value. -/
structure ExecResult where
  state : ApplicationState
  output : List String
  rng : RNG
  ret : Except PyExc Bool
deriving Repr

/-- `execute_command` (source lines 2484-2574).  The progress character
set is derived from the state passed in (the source consults the module
global `app_state` in the commands that take no state argument; inside
`run_demo_script` and the interactive loop both are the same object). -/
def execute_command (cmd : Option String) (args : List String)
    (st : ApplicationState) (e : Env) (r : RNG) : ExecResult :=
  let uni := should_use_unicode st.unicode_mode e
  match cmd with
  | none => ⟨st, [], r, .ok false⟩
  | some c =>
    if c == "help" then ⟨st, HELP_LINES, r, .ok true⟩
    else if c == "scan" then
      let (st2, out) := cmd_scan st uni
      ⟨st2, out, r, .ok true⟩
    else if c == "decrypt" then
      let (out, r2) := cmd_decrypt uni r
      ⟨st, out, r2, .ok true⟩
    else if c == "infiltrate" then
      let (st2, out) := cmd_infiltrate args.head? st uni
      ⟨st2, out, r, .ok true⟩
    else if c == "hack" then
      let (st2, out) := cmd_hack st uni
      ⟨st2, out, r, .ok true⟩
    else if c == "trace" then
      let (out, r2) := cmd_trace args.head? uni r
      ⟨st, out, r2, .ok true⟩
    else if c == "countertrace" || c == "evade" then
      ⟨st, cmd_countertrace uni, r, .ok true⟩
    else if c == "status" then
      ⟨st, statusLines st.system_status, r, .ok true⟩
    else if c == "clear" then
      ⟨st, [], r, .ok true⟩
    else if c == "exit" then
      ⟨st, EXIT_LINES, r, .error (.systemExit 0)⟩
    else
      ⟨st, ["Command not recognized. Type \x27help\x27 for available commands."], r, .ok false⟩

/-- One raw input line through the parse/execute pipeline. -/
def execLine (line : String) (st : ApplicationState) (e : Env) (r : RNG) :
    ExecResult :=
  let (c, args) := parse_command line
  execute_command c args st e r

/-! ## Demo script (`run_demo_script`, source lines 2581-2664) -/

def DEMO_COMMANDS : List String :=
  [ "scan", "infiltrate MAINFRAME-7", "hack", "trace QUANTUM-DB",
    "countertrace", "status", "exit" ]

structure DemoAcc where
  st : ApplicationState
  rng : RNG
  out : List String
  stopped : Bool

/-- One iteration of the demo loop: echo the command with its prompt,
run it, and stop the loop when an exception (`SystemExit`) escapes. -/
def demoStep (e : Env) (acc : DemoAcc) (line : String) : DemoAcc :=
  if acc.stopped then acc
  else
    let res := execLine line acc.st e acc.rng
    { st := res.state, rng := res.rng,
      out := acc.out ++ ["", "> " ++ line] ++ res.output,
      stopped := match res.ret with | .ok _ => false | .error _ => true }

/-- `run_demo_script`: seed the generator (the seeded stream is the
`r` argument), print the banner, then run the fixed sequence.  The
result is the full standard output of the run. -/
def run_demo_script (st0 : ApplicationState) (e : Env) (r : RNG) : List String :=
  (DEMO_COMMANDS.foldl (demoStep e) ⟨st0, r, [get_banner st0 e], false⟩).out

/-! ## Theorems -/

/-- C5: the width classifier returns compact exactly on widths up to
62, standard exactly on 63..99 and wide exactly on widths from 100 on;
the three ranges partition all integers, so exactly one tier is
returned for every width. -/
theorem classify_width_partition (w : Int) :
    (classify_width w = "compact" ↔ w ≤ 62) ∧
    (classify_width w = "standard" ↔ 63 ≤ w ∧ w ≤ 99) ∧
    (classify_width w = "wide" ↔ 100 ≤ w) := by
  unfold classify_width DISPLAY_WIDTH_COMPACT_THRESHOLD DISPLAY_WIDTH_STANDARD_THRESHOLD
  split_ifs with h1 h2
  · refine ⟨⟨fun _ => h1, fun _ => rfl⟩, ?_, ?_⟩
    · exact ⟨fun h => absurd h (by decide), fun h => absurd h.1 (by omega)⟩
    · exact ⟨fun h => absurd h (by decide), fun h => absurd h (by omega)⟩
  · refine ⟨?_, ⟨fun _ => ⟨by omega, h2⟩, fun _ => rfl⟩, ?_⟩
    · exact ⟨fun h => absurd h (by decide), fun h => absurd h h1⟩
    · exact ⟨fun h => absurd h (by decide), fun h => absurd h (by omega)⟩
  · refine ⟨?_, ?_, ⟨fun _ => by omega, fun _ => rfl⟩⟩
    · exact ⟨fun h => absurd h (by decide), fun h => absurd h h1⟩
    · exact ⟨fun h => absurd h (by decide), fun h => absurd h.2 h2⟩

/-- C6: unicode resolution is a pure function of the mode and the
environment variables: off is always false, on is always true, and auto
holds exactly when some locale variable carries a UTF-8 marker and the
TERM variable starts with one of the three 256-color identifiers.  The
interactive probe does not occur in `should_use_unicode` at all. -/
theorem should_use_unicode_spec (e : Env) :
    should_use_unicode "off" e = false ∧
    should_use_unicode "on" e = true ∧
    (should_use_unicode "auto" e = true ↔
      ((∃ v ∈ ["LC_ALL", "LC_CTYPE", "LANG"],
          containsSub (strUpper (envGetD e v "")) "UTF-8" = true ∨
            containsSub (strLower (envGetD e v "")) "utf8" = true) ∧
        ∃ t ∈ UNICODE_TERMS, strStartsWith (strLower (envGetD e "TERM" "")) t = true)) := by
  refine ⟨rfl, rfl, ?_⟩
  show (utf8_env_check e && terminal_hints_unicode e) = true ↔ _
  rw [Bool.and_eq_true]
  unfold utf8_env_check terminal_hints_unicode
  simp [List.any_eq_true]

/-- C7: terminal width detection follows the ordered fallback chain (OS
query if positive, else COLUMNS if a positive all-digit value, else
TERM_COLS likewise, else the literal 80) and is always positive. -/
theorem get_terminal_width_chain (e : Env) :
    0 < get_terminal_width e ∧
    (∀ c : Int, e.osColumns = some c → 0 < c → get_terminal_width e = c) ∧
    ((e.osColumns = none ∨ ∃ c, e.osColumns = some c ∧ c ≤ 0) →
      (∀ d : Int, envPositiveInt (envGetOpt e "COLUMNS") = some d →
        get_terminal_width e = d) ∧
      (envPositiveInt (envGetOpt e "COLUMNS") = none →
        (∀ d : Int, envPositiveInt (envGetOpt e "TERM_COLS") = some d →
          get_terminal_width e = d) ∧
        (envPositiveInt (envGetOpt e "TERM_COLS") = none →
          get_terminal_width e = 80))) ∧
    (∀ (s : String) (d : Int), envPositiveInt (some s) = some d →
      pyIsDigit s = true ∧ 0 < d) := by
  have hpos : ∀ (v : Option String) (d : Int), envPositiveInt v = some d → 0 < d := by
    intro v d h
    unfold envPositiveInt at h
    cases v with
    | none => exact absurd h (by simp)
    | some s =>
      by_cases hd : pyIsDigit s = true
      · simp only [hd, if_true] at h
        by_cases hp : (digitsVal s : Int) > 0
        · simp only [hp, if_true, Option.some.injEq] at h; omega
        · simp [hp] at h
      · simp [hd] at h
  have hdig : ∀ (s : String) (d : Int), envPositiveInt (some s) = some d →
      pyIsDigit s = true ∧ 0 < d := by
    intro s d h
    refine ⟨?_, hpos _ _ h⟩
    unfold envPositiveInt at h
    by_cases hd : pyIsDigit s = true
    · exact hd
    · simp [hd] at h
  have hfall : ∀ e2 : Env, 0 < (match envPositiveInt (envGetOpt e2 "COLUMNS") with
      | some c => c
      | none =>
        match envPositiveInt (envGetOpt e2 "TERM_COLS") with
        | some c => c
        | none => DISPLAY_DEFAULT_TERMINAL_WIDTH) := by
    intro e2
    cases h1 : envPositiveInt (envGetOpt e2 "COLUMNS") with
    | some c => simpa using hpos _ _ h1
    | none =>
      cases h2 : envPositiveInt (envGetOpt e2 "TERM_COLS") with
      | some c => simpa using hpos _ _ h2
      | none => simp [DISPLAY_DEFAULT_TERMINAL_WIDTH]
  refine ⟨?_, ?_, ?_, hdig⟩
  · unfold get_terminal_width
    cases hos : e.osColumns with
    | some c =>
      by_cases hc : c > 0
      · simp [hc]
      · simpa [hc] using hfall e
    | none => simpa using hfall e
  · intro c hc hcpos
    unfold get_terminal_width
    rw [hc]
    simp [hcpos]
  · intro hosf
    have hnone : (match e.osColumns with
        | some c => if c > 0 then some c else none
        | none => none) = (none : Option Int) := by
      rcases hosf with h | ⟨c, hc, hcle⟩
      · rw [h]
      · rw [hc]; simp; omega
    refine ⟨?_, ?_⟩
    · intro d hd
      unfold get_terminal_width
      rw [hnone, hd]
    · intro hcn
      refine ⟨?_, ?_⟩
      · intro d hd
        unfold get_terminal_width
        rw [hnone, hcn, hd]
      · intro htn
        unfold get_terminal_width
        rw [hnone, hcn, htn]
        rfl

/-- C7 witness: with a failing OS query and COLUMNS set to the digit
string 120, the detected width is 120 and positive. -/
theorem get_terminal_width_chain_witness :
    0 < get_terminal_width ⟨[("COLUMNS", "120")], none, false⟩ ∧
    get_terminal_width ⟨[("COLUMNS", "120")], none, false⟩ = 120 :=
  ⟨(get_terminal_width_chain ⟨[("COLUMNS", "120")], none, false⟩).1,
    ((get_terminal_width_chain ⟨[("COLUMNS", "120")], none, false⟩).2.2.1
      (Or.inl rfl)).1 120 (by decide)⟩

/-- C1: on the initial state, `update_system_status("online", "yes")`
raises the type-mismatch validation error, but the stored value of
`online` after the call is the string "yes", no longer the boolean it
held before the call — the mutation is committed before validation, so
the update is not atomic (the spec marks this as a latent defect of the
reference behaviour). -/
theorem update_status_online_string_not_atomic :
    (update_system_status initial_app_state "online" (.pyStr "yes")).2 =
      .error (.typeMismatch "online") ∧
    dictGet (update_system_status initial_app_state "online" (.pyStr "yes")).1.system_status
      "online" = .pyStr "yes" ∧
    dictGet initial_app_state.system_status "online" = .pyBool true :=
  ⟨rfl, rfl, rfl⟩

/-- C2: calling the progress animator with zero steps raises
`ZeroDivisionError` (the percentage computation divides by `steps`);
no 100 percent frame is rendered, for either character set and any
label. -/
theorem progress_zero_steps_raises (label : String) (uni : Bool) :
    progressRun label 0 uni = .error .zeroDivision := rfl

/-- Seven-field status dictionary with given field values, in the
initial key order. -/
def mkStatus (o : Bool) (lv : String) (conn : Int) (f stl : Bool) (cs cr : Int) :
    List (String × PyVal) :=
  [ ("online", .pyBool o), ("security_level", .pyStr lv),
    ("connections", .pyInt conn), ("firewall", .pyBool f),
    ("stealth", .pyBool stl), ("compromised_systems", .pyInt cs),
    ("credits", .pyInt cr) ]

/-- C4 counterexample: on the initial state the status command prints
exactly five lines, and neither a compromised-systems line nor a
credits line is among them, so the seven status fields are not all
printed. -/
theorem status_output_omits_two_fields :
    (execute_command (some "status") [] initial_app_state ⟨[], none, false⟩ ⟨[]⟩).output =
      [ "System Status: ONLINE", "Security Level: MAXIMUM",
        "Active Connections: 3", "Firewall: ENABLED", "Stealth Mode: ON" ] ∧
    ((execute_command (some "status") [] initial_app_state ⟨[], none, false⟩ ⟨[]⟩).output).length = 5 ∧
    ((execute_command (some "status") [] initial_app_state ⟨[], none, false⟩ ⟨[]⟩).output).all
      (fun l => !(containsSub l "Compromised" || containsSub l "Credits" ||
        containsSub l "compromised" || containsSub l "credits")) = true :=
  ⟨rfl, rfl, rfl⟩

/-- C4 amended: the status command is read-only — it returns the
session state (and generator) unchanged — and prints five of the seven
status fields (online, securityLevel, connections, firewall, stealth),
the booleans rendered through the fixed ONLINE/OFFLINE,
ENABLED/DISABLED and ON/OFF mappings; compromisedSystems and credits
are not printed. -/
theorem status_readonly_five_field_render (st : ApplicationState) (e : Env) (r : RNG) :
    (execute_command (some "status") [] st e r).state = st ∧
    (execute_command (some "status") [] st e r).rng = r ∧
    (execute_command (some "status") [] st e r).ret = .ok true ∧
    (execute_command (some "status") [] st e r).output = statusLines st.system_status ∧
    ∀ (o f stl : Bool) (lv : String) (conn cs cr : Int),
      statusLines (mkStatus o lv conn f stl cs cr) =
        [ "System Status: " ++ (if o then "ONLINE" else "OFFLINE"),
          "Security Level: " ++ lv,
          "Active Connections: " ++ toString conn,
          "Firewall: " ++ (if f then "ENABLED" else "DISABLED"),
          "Stealth Mode: " ++ (if stl then "ON" else "OFF") ] := by
  refine ⟨rfl, rfl, rfl, rfl, ?_⟩
  intro o f stl lv conn cs cr
  cases o <;> cases f <;> cases stl <;> rfl

/-- The ten commands whose dispatch reaches `return True`. -/
def RECOGNIZED_NONEXIT : List String :=
  [ "help", "scan", "decrypt", "infiltrate", "hack", "trace",
    "countertrace", "evade", "status", "clear" ]

/-- C10 counterexample: for the exit command the dispatcher does not
return true — `cmd_exit` calls `sys.exit(0)`, and the `SystemExit`
escapes `execute_command` before its final `return True` is reached. -/
theorem execute_exit_does_not_return_true :
    (execute_command (some "exit") [] initial_app_state ⟨[], none, false⟩ ⟨[]⟩).ret =
      .error (.systemExit 0) ∧
    (execute_command (some "exit") [] initial_app_state ⟨[], none, false⟩ ⟨[]⟩).ret ≠
      .ok true := by
  refine ⟨rfl, ?_⟩
  intro h
  exact Except.noConfusion h

/-- C10 amended: the dispatcher returns true for every recognized
command other than exit — regardless of the outcome of the command,
missing arguments and unknown targets included — returns false exactly
for a none command or an unrecognized one, and for exit raises
`SystemExit` instead of returning. -/
theorem execute_command_ret_spec (cmd : Option String) (args : List String)
    (st : ApplicationState) (e : Env) (r : RNG) :
    (execute_command cmd args st e r).ret =
      match cmd with
      | none => .ok false
      | some c =>
        if c ∈ RECOGNIZED_NONEXIT then .ok true
        else if c = "exit" then .error (.systemExit 0)
        else .ok false := by
  cases cmd with
  | none => rfl
  | some c =>
    by_cases h1 : c = "help"
    · subst h1; rfl
    by_cases h2 : c = "scan"
    · subst h2; rfl
    by_cases h3 : c = "decrypt"
    · subst h3; rfl
    by_cases h4 : c = "infiltrate"
    · subst h4; rfl
    by_cases h5 : c = "hack"
    · subst h5; rfl
    by_cases h6 : c = "trace"
    · subst h6; rfl
    by_cases h7 : c = "countertrace"
    · subst h7; rfl
    by_cases h8 : c = "evade"
    · subst h8; rfl
    by_cases h9 : c = "status"
    · subst h9; rfl
    by_cases h10 : c = "clear"
    · subst h10; rfl
    by_cases h11 : c = "exit"
    · subst h11; rfl
    simp [execute_command, RECOGNIZED_NONEXIT, h1, h2, h3, h4, h5, h6, h7, h8,
      h9, h10, h11]

/-! ### Rounding and random-draw lemmas for the trace command -/

lemma round_q_mono {a b : ℚ} (h : a ≤ b) : round a ≤ round b := by
  rw [round_eq, round_eq]
  exact Int.floor_mono (by linarith)

lemma round4_le_int (x : ℚ) (m : ℤ) (h : x ≤ (m : ℚ)) : round4 x ≤ (m : ℚ) := by
  have h1 : x * 10000 ≤ ((m * 10000 : ℤ) : ℚ) := by push_cast; linarith
  have h2 : round (x * 10000) ≤ m * 10000 := by
    have h3 := round_q_mono h1
    rwa [round_intCast] at h3
  unfold round4
  rw [div_le_iff₀ (by norm_num)]
  calc ((round (x * 10000) : ℤ) : ℚ) ≤ ((m * 10000 : ℤ) : ℚ) := by exact_mod_cast h2
    _ = (m : ℚ) * 10000 := by push_cast; ring

lemma round4_ge_int (x : ℚ) (m : ℤ) (h : (m : ℚ) ≤ x) : (m : ℚ) ≤ round4 x := by
  have h1 : ((m * 10000 : ℤ) : ℚ) ≤ x * 10000 := by push_cast; linarith
  have h2 : m * 10000 ≤ round (x * 10000) := by
    have h3 := round_q_mono h1
    rwa [round_intCast] at h3
  unfold round4
  rw [le_div_iff₀ (by norm_num)]
  calc (m : ℚ) * 10000 = ((m * 10000 : ℤ) : ℚ) := by push_cast; ring
    _ ≤ ((round (x * 10000) : ℤ) : ℚ) := by exact_mod_cast h2

lemma random_line_mem (options : List String) (h : options ≠ []) (r : RNG) :
    (random_line options r).1 ∈ options := by
  have hl : 0 < options.length := List.length_pos.mpr h
  have hlt : (r.stream.headD 0).num.natAbs % options.length < options.length :=
    Nat.mod_lt _ hl
  show options.getD ((r.stream.headD 0).num.natAbs % options.length) "" ∈ options
  rw [List.getD_eq_getElem options "" hlt]
  exact List.getElem_mem hlt

/-- C8: for a target whose upper-cased name misses the fixed location
table, the trace command never consults the discovered list (the
session state is returned unchanged for every state), and it prints the
unknown-target outcome: a latitude in [-90, 90] and a longitude in
[-180, 180], each an exact multiple of 1/10000 (four decimal places),
and an ISP drawn from the fixed fallback pool. -/
theorem trace_unknown_target_spec (st : ApplicationState) (e : Env) (t : String)
    (u1 u2 q : ℚ) (rest : List ℚ)
    (ht : t ≠ "")
    (hmiss : PREDEFINED_LOCATIONS.find? (fun p => p.1 == strUpper t) = none)
    (hu1l : 0 ≤ u1) (hu1r : u1 ≤ 1) (hu2l : 0 ≤ u2) (hu2r : u2 ≤ 1) :
    ∃ lat lon isp,
      (cmd_trace_outcome (strUpper t) ⟨u1 :: u2 :: q :: rest⟩).1 = .unknown lat lon isp ∧
      (execute_command (some "trace") [t] st e ⟨u1 :: u2 :: q :: rest⟩).state = st ∧
      (execute_command (some "trace") [t] st e ⟨u1 :: u2 :: q :: rest⟩).output =
        ["Tracing " ++ strUpper t ++ "..."] ++
          progressLines "Triangulating position" PROGRESS_BAR_STEPS_TRACE
            (should_use_unicode st.unicode_mode e) ++
          renderTraceOut (.unknown lat lon isp) ∧
      -90 ≤ lat ∧ lat ≤ 90 ∧ -180 ≤ lon ∧ lon ≤ 180 ∧
      (∃ zl : ℤ, lat = (zl : ℚ) / 10000) ∧ (∃ zo : ℤ, lon = (zo : ℚ) / 10000) ∧
      isp ∈ TRACE_FALLBACK_ISPS := by
  have hne : (t == "") = false := by
    simp only [beq_eq_false_iff_ne, ne_eq]
    exact ht
  have houtcFull : cmd_trace_outcome (strUpper t) ⟨u1 :: u2 :: q :: rest⟩ =
      (.unknown (round4 (COORDINATE_LAT_MIN + (COORDINATE_LAT_MAX - COORDINATE_LAT_MIN) * u1))
        (round4 (COORDINATE_LON_MIN + (COORDINATE_LON_MAX - COORDINATE_LON_MIN) * u2))
        ((random_line TRACE_FALLBACK_ISPS ⟨q :: rest⟩).1),
       (random_line TRACE_FALLBACK_ISPS ⟨q :: rest⟩).2) := by
    unfold cmd_trace_outcome
    rw [hmiss]
    rfl
  refine ⟨round4 (COORDINATE_LAT_MIN + (COORDINATE_LAT_MAX - COORDINATE_LAT_MIN) * u1),
    round4 (COORDINATE_LON_MIN + (COORDINATE_LON_MAX - COORDINATE_LON_MIN) * u2),
    (random_line TRACE_FALLBACK_ISPS ⟨q :: rest⟩).1,
    by rw [houtcFull], rfl, ?_, ?_, ?_, ?_, ?_,
    ⟨round ((COORDINATE_LAT_MIN + (COORDINATE_LAT_MAX - COORDINATE_LAT_MIN) * u1) * 10000), rfl⟩,
    ⟨round ((COORDINATE_LON_MIN + (COORDINATE_LON_MAX - COORDINATE_LON_MIN) * u2) * 10000), rfl⟩,
    ?_⟩
  · show (cmd_trace (some t) (should_use_unicode st.unicode_mode e)
        ⟨u1 :: u2 :: q :: rest⟩).1 = _
    simp only [cmd_trace, hne, Bool.false_eq_true, if_false, houtcFull]
  · have := round4_ge_int (COORDINATE_LAT_MIN + (COORDINATE_LAT_MAX - COORDINATE_LAT_MIN) * u1)
      (-90) (by unfold COORDINATE_LAT_MIN COORDINATE_LAT_MAX; push_cast; linarith)
    exact_mod_cast this
  · have := round4_le_int (COORDINATE_LAT_MIN + (COORDINATE_LAT_MAX - COORDINATE_LAT_MIN) * u1)
      90 (by unfold COORDINATE_LAT_MIN COORDINATE_LAT_MAX; push_cast; linarith)
    exact_mod_cast this
  · have := round4_ge_int (COORDINATE_LON_MIN + (COORDINATE_LON_MAX - COORDINATE_LON_MIN) * u2)
      (-180) (by unfold COORDINATE_LON_MIN COORDINATE_LON_MAX; push_cast; linarith)
    exact_mod_cast this
  · have := round4_le_int (COORDINATE_LON_MIN + (COORDINATE_LON_MAX - COORDINATE_LON_MIN) * u2)
      180 (by unfold COORDINATE_LON_MIN COORDINATE_LON_MAX; push_cast; linarith)
    exact_mod_cast this
  · exact random_line_mem TRACE_FALLBACK_ISPS (by simp [TRACE_FALLBACK_ISPS]) _

/-- C8 witness: tracing ZZZZ-9 (absent from the table) from the
initial state with the draws 1/2, 1/2, 0. -/
theorem trace_unknown_target_spec_witness :
    ∃ lat lon isp,
      (cmd_trace_outcome (strUpper "ZZZZ-9") ⟨(1/2 : ℚ) :: (1/2 : ℚ) :: (0 : ℚ) :: []⟩).1 =
        .unknown lat lon isp ∧
      (execute_command (some "trace") ["ZZZZ-9"] initial_app_state ⟨[], none, false⟩
        ⟨(1/2 : ℚ) :: (1/2 : ℚ) :: (0 : ℚ) :: []⟩).state = initial_app_state ∧
      (execute_command (some "trace") ["ZZZZ-9"] initial_app_state ⟨[], none, false⟩
        ⟨(1/2 : ℚ) :: (1/2 : ℚ) :: (0 : ℚ) :: []⟩).output =
        ["Tracing " ++ strUpper "ZZZZ-9" ++ "..."] ++
          progressLines "Triangulating position" PROGRESS_BAR_STEPS_TRACE
            (should_use_unicode initial_app_state.unicode_mode ⟨[], none, false⟩) ++
          renderTraceOut (.unknown lat lon isp) ∧
      -90 ≤ lat ∧ lat ≤ 90 ∧ -180 ≤ lon ∧ lon ≤ 180 ∧
      (∃ zl : ℤ, lat = (zl : ℚ) / 10000) ∧ (∃ zo : ℤ, lon = (zo : ℚ) / 10000) ∧
      isp ∈ TRACE_FALLBACK_ISPS :=
  trace_unknown_target_spec initial_app_state ⟨[], none, false⟩ "ZZZZ-9"
    (1/2) (1/2) 0 [] (by decide) rfl (by norm_num) (by norm_num) (by norm_num) (by norm_num)

/-! ### The session loop and the discovery invariant -/

/-- The session loop of `interactive_mode`: each raw line goes through
the parse/execute pipeline against the running state; an escaping
exception (`SystemExit` from the exit command) ends the loop. -/
def runLines : List String → ApplicationState → Env → RNG → ApplicationState × RNG
  | [], st, _, r => (st, r)
  | line :: rest, st, e, r =>
    let res := execLine line st e r
    match res.ret with
    | .ok _ => runLines rest res.state e res.rng
    | .error _ => (res.state, res.rng)

/-- All states visited by the session loop, the initial and final ones
included. -/
def runTrace : List String → ApplicationState → Env → RNG → List ApplicationState
  | [], st, _, _ => [st]
  | line :: rest, st, e, r =>
    let res := execLine line st e r
    match res.ret with
    | .ok _ => st :: runTrace rest res.state e res.rng
    | .error _ => [st, res.state]

lemma mem_setAdd (l : List String) (x y : String) :
    y ∈ setAdd l x ↔ y ∈ l ∨ y = x := by
  unfold setAdd
  split_ifs with h
  · constructor
    · exact fun hy => Or.inl hy
    · rintro (hy | rfl)
      · exact hy
      · exact h
  · simp

/-- How one `cmd_infiltrate` call can change the state: not at all, or
by adding one currently discovered name to the infiltrated set. -/
lemma cmd_infiltrate_state_cases (target : Option String) (st : ApplicationState)
    (uni : Bool) :
    (cmd_infiltrate target st uni).1 = st ∨
    ∃ tu, tu ∈ st.discovered_targets.map Prod.fst ∧
      (cmd_infiltrate target st uni).1 =
        { st with infiltrated_targets := setAdd st.infiltrated_targets tu } := by
  cases target with
  | none => exact Or.inl rfl
  | some t =>
    unfold cmd_infiltrate
    by_cases h0 : (t == "") = true
    · simp [h0]
    · simp only [h0, Bool.false_eq_true, if_false]
      by_cases h1 : strUpper t ∈ st.discovered_targets.map Prod.fst
      · right
        refine ⟨strUpper t, h1, ?_⟩
        simp [h1]
      · left
        simp [h1]

/-- How one dispatched command can move the discovered and infiltrated
collections: leave both alone, replace the discovered list by the fixed
scan catalog (only the scan command does this), or add one currently
discovered name to the infiltrated set. -/
lemma execute_command_state_cases (cmd : Option String) (args : List String)
    (st : ApplicationState) (e : Env) (r : RNG) :
    ((execute_command cmd args st e r).state.discovered_targets = st.discovered_targets ∧
      (execute_command cmd args st e r).state.infiltrated_targets = st.infiltrated_targets) ∨
    (cmd = some "scan" ∧
      (execute_command cmd args st e r).state =
        { st with discovered_targets := SCAN_TARGETS }) ∨
    (∃ tu, tu ∈ st.discovered_targets.map Prod.fst ∧
      (execute_command cmd args st e r).state =
        { st with infiltrated_targets := setAdd st.infiltrated_targets tu }) := by
  cases cmd with
  | none => exact Or.inl ⟨rfl, rfl⟩
  | some c =>
    by_cases h1 : c = "help"
    · exact Or.inl ⟨by subst h1; rfl, by subst h1; rfl⟩
    by_cases h2 : c = "scan"
    · subst h2
      exact Or.inr (Or.inl ⟨rfl, rfl⟩)
    by_cases h3 : c = "decrypt"
    · exact Or.inl ⟨by subst h3; rfl, by subst h3; rfl⟩
    by_cases h4 : c = "infiltrate"
    · subst h4
      rcases cmd_infiltrate_state_cases args.head? st
          (should_use_unicode st.unicode_mode e) with hc | ⟨tu, htu, hc⟩
      · refine Or.inl ?_
        show ((cmd_infiltrate args.head? st (should_use_unicode st.unicode_mode e)).1.discovered_targets
            = st.discovered_targets) ∧
          ((cmd_infiltrate args.head? st (should_use_unicode st.unicode_mode e)).1.infiltrated_targets
            = st.infiltrated_targets)
        rw [hc]
        exact ⟨rfl, rfl⟩
      · refine Or.inr (Or.inr ⟨tu, htu, ?_⟩)
        show (cmd_infiltrate args.head? st (should_use_unicode st.unicode_mode e)).1 = _
        exact hc
    by_cases h5 : c = "hack"
    · exact Or.inl ⟨by subst h5; rfl, by subst h5; rfl⟩
    by_cases h6 : c = "trace"
    · exact Or.inl ⟨by subst h6; rfl, by subst h6; rfl⟩
    by_cases h7 : c = "countertrace"
    · exact Or.inl ⟨by subst h7; rfl, by subst h7; rfl⟩
    by_cases h8 : c = "evade"
    · exact Or.inl ⟨by subst h8; rfl, by subst h8; rfl⟩
    by_cases h9 : c = "status"
    · exact Or.inl ⟨by subst h9; rfl, by subst h9; rfl⟩
    by_cases h10 : c = "clear"
    · exact Or.inl ⟨by subst h10; rfl, by subst h10; rfl⟩
    by_cases h11 : c = "exit"
    · exact Or.inl ⟨by subst h11; rfl, by subst h11; rfl⟩
    refine Or.inl ?_
    simp [execute_command, h1, h2, h3, h4, h5, h6, h7, h8, h9, h10, h11]

/-- The discovery invariant: the discovered list is either still empty
or the fixed scan catalog, and every infiltrated name is among the
currently discovered names. -/
def StateInv (st : ApplicationState) : Prop :=
  (st.discovered_targets = [] ∨ st.discovered_targets = SCAN_TARGETS) ∧
  ∀ n ∈ st.infiltrated_targets, n ∈ st.discovered_targets.map Prod.fst

lemma StateInv_initial : StateInv initial_app_state := by
  constructor
  · exact Or.inl rfl
  · intro n hn
    simp [initial_app_state] at hn

lemma StateInv_execute (cmd : Option String) (args : List String)
    (st : ApplicationState) (e : Env) (r : RNG) (hinv : StateInv st) :
    StateInv (execute_command cmd args st e r).state := by
  rcases execute_command_state_cases cmd args st e r with
    ⟨hd, hi⟩ | ⟨_, hst⟩ | ⟨tu, htu, hst⟩
  · exact ⟨by rw [hd]; exact hinv.1, by rw [hd, hi]; exact hinv.2⟩
  · rw [hst]
    refine ⟨Or.inr rfl, ?_⟩
    intro n hn
    rcases hinv.1 with hemp | hcat
    · have := hinv.2 n hn
      rw [hemp] at this
      simp at this
    · have := hinv.2 n hn
      rwa [hcat] at this
  · rw [hst]
    refine ⟨hinv.1, ?_⟩
    intro n hn
    rw [mem_setAdd] at hn
    rcases hn with hn | rfl
    · exact hinv.2 n hn
    · exact htu

lemma StateInv_runLines (lines : List String) (st : ApplicationState) (e : Env)
    (r : RNG) (hinv : StateInv st) : StateInv (runLines lines st e r).1 := by
  induction lines generalizing st r with
  | nil => exact hinv
  | cons line rest ih =>
    have hstep := StateInv_execute (parse_command line).1 (parse_command line).2 st e r hinv
    unfold runLines execLine
    cases hret : (execute_command (parse_command line).1 (parse_command line).2 st e r).ret with
    | ok b => simpa [hret] using ih _ _ hstep
    | error ex => simpa [hret] using hstep

lemma runLines_final_mem_runTrace (lines : List String) (st : ApplicationState)
    (e : Env) (r : RNG) : (runLines lines st e r).1 ∈ runTrace lines st e r := by
  induction lines generalizing st r with
  | nil => simp [runLines, runTrace]
  | cons line rest ih =>
    unfold runLines runTrace execLine
    cases hret : (execute_command (parse_command line).1 (parse_command line).2 st e r).ret with
    | ok b => simpa [hret] using Or.inr (ih _ _)
    | error ex => simp [hret]

/-- Commands other than scan keep the discovered list empty and, when
the infiltrated set was empty, keep it empty as well. -/
lemma execute_command_no_scan (cmd : Option String) (args : List String)
    (st : ApplicationState) (e : Env) (r : RNG)
    (hns : cmd ≠ some "scan") (hd : st.discovered_targets = [])
    (hi : st.infiltrated_targets = []) :
    (execute_command cmd args st e r).state.discovered_targets = [] ∧
    (execute_command cmd args st e r).state.infiltrated_targets = [] := by
  rcases execute_command_state_cases cmd args st e r with
    ⟨hd2, hi2⟩ | ⟨hc, _⟩ | ⟨tu, htu, _⟩
  · exact ⟨by rw [hd2, hd], by rw [hi2, hi]⟩
  · exact absurd hc hns
  · rw [hd] at htu
    simp at htu

lemma runLines_no_scan (lines : List String) (st : ApplicationState) (e : Env)
    (r : RNG) (hns : ∀ l ∈ lines, (parse_command l).1 ≠ some "scan")
    (hd : st.discovered_targets = []) (hi : st.infiltrated_targets = []) :
    (runLines lines st e r).1.discovered_targets = [] ∧
    (runLines lines st e r).1.infiltrated_targets = [] := by
  induction lines generalizing st r with
  | nil => exact ⟨hd, hi⟩
  | cons line rest ih =>
    have hstep := execute_command_no_scan (parse_command line).1 (parse_command line).2
      st e r (hns line (List.mem_cons_self line rest)) hd hi
    unfold runLines execLine
    cases hret : (execute_command (parse_command line).1 (parse_command line).2 st e r).ret with
    | ok b =>
      simpa [hret] using ih _ _ (fun l hl => hns l (List.mem_cons_of_mem line hl))
        hstep.1 hstep.2
    | error ex => simpa [hret] using hstep

/-- C3: along every command sequence run through the engine from the
initial session state, each name in the final infiltrated set was
discovered at some visited state; and infiltrating any named target
before any scan command reports not found and leaves the (still empty)
infiltrated set unchanged. -/
theorem infiltrated_subset_discovered (lines : List String) (e : Env) (r : RNG) :
    (∀ n ∈ (runLines lines initial_app_state e r).1.infiltrated_targets,
      ∃ st ∈ runTrace lines initial_app_state e r,
        n ∈ st.discovered_targets.map Prod.fst) ∧
    (∀ (X : String) (r2 : RNG), X ≠ "" →
      (∀ l ∈ lines, (parse_command l).1 ≠ some "scan") →
      (runLines lines initial_app_state e r).1.infiltrated_targets = [] ∧
      (execute_command (some "infiltrate") [X]
          (runLines lines initial_app_state e r).1 e r2).output =
        ["Target not found. Run \x27scan\x27 first."] ∧
      (execute_command (some "infiltrate") [X]
          (runLines lines initial_app_state e r).1 e r2).state =
        (runLines lines initial_app_state e r).1) := by
  constructor
  · intro n hn
    have hinv := StateInv_runLines lines initial_app_state e r StateInv_initial
    exact ⟨(runLines lines initial_app_state e r).1,
      runLines_final_mem_runTrace lines initial_app_state e r, hinv.2 n hn⟩
  · intro X r2 hX hns
    have hfin := runLines_no_scan lines initial_app_state e r hns rfl rfl
    have hXne : (X == "") = false := by
      simp only [beq_eq_false_iff_ne, ne_eq]
      exact hX
    have hnotmem : strUpper X ∉
        (runLines lines initial_app_state e r).1.discovered_targets.map Prod.fst := by
      rw [hfin.1]
      simp
    refine ⟨hfin.2, ?_, ?_⟩
    · show (cmd_infiltrate (some X) (runLines lines initial_app_state e r).1
          (should_use_unicode (runLines lines initial_app_state e r).1.unicode_mode e)).2 = _
      simp [cmd_infiltrate, hXne, hnotmem]
    · show (cmd_infiltrate (some X) (runLines lines initial_app_state e r).1
          (should_use_unicode (runLines lines initial_app_state e r).1.unicode_mode e)).1 = _
      simp [cmd_infiltrate, hXne, hnotmem]

/-- C3 witness: the two-command session decrypt, infiltrate SAT-7 (no
scan anywhere), followed by an explicit infiltrate of X-1. -/
theorem infiltrated_subset_discovered_witness :
    (∀ n ∈ (runLines ["decrypt", "infiltrate SAT-7"] initial_app_state
        ⟨[], none, false⟩ ⟨[0]⟩).1.infiltrated_targets,
      ∃ st ∈ runTrace ["decrypt", "infiltrate SAT-7"] initial_app_state
          ⟨[], none, false⟩ ⟨[0]⟩,
        n ∈ st.discovered_targets.map Prod.fst) ∧
    (("X-1" : String) ≠ "" ∧
      (execute_command (some "infiltrate") ["X-1"]
          (runLines ["decrypt", "infiltrate SAT-7"] initial_app_state
            ⟨[], none, false⟩ ⟨[0]⟩).1 ⟨[], none, false⟩ ⟨[]⟩).output =
        ["Target not found. Run \x27scan\x27 first."]) :=
  ⟨(infiltrated_subset_discovered ["decrypt", "infiltrate SAT-7"]
      ⟨[], none, false⟩ ⟨[0]⟩).1,
    by decide,
    ((infiltrated_subset_discovered ["decrypt", "infiltrate SAT-7"]
        ⟨[], none, false⟩ ⟨[0]⟩).2 "X-1" ⟨[]⟩ (by decide)
      (by intro l hl; fin_cases hl <;> decide)).2.1⟩

set_option maxRecDepth 4000 in
/-- C9: the demo output is one and the same list of lines for any two
states of the seeded generator — the demo path draws no randomness at
all (scan is fixed, the traced QUANTUM-DB is a table hit), so two runs
from the initial session state in the same environment, each reseeded
with 1337, are byte-identical; the proof is by definitional reduction
of both runs, the generator stream never being consumed. -/
theorem run_demo_script_deterministic (e : Env) (r1 r2 : RNG) :
    run_demo_script initial_app_state e r1 = run_demo_script initial_app_state e r2 := rfl

end MasterHacker
